import Mathlib

/-!
Shallow embedding of `src/lib/api.ts` from health-buddie-log.

The module is a browser data-access layer: localStorage-backed session
(keys `healthBuddieToken`, `healthBuddieUser`, plus separate plain
`phoneNumber` / `token` keys read only by `getMessages`), a header
builder, deterministic mock-data generators, and four gateway
operations (`login`, `logout`, `isAuthenticated`, `getHealthData`,
`getMessages`, `testApiConnection`).

Modelling choices:
* JS values parsed from / serialized to JSON are modelled by `Json`.
* A string held in localStorage is modelled by `StorageVal`, tagged by
  the outcome of `JSON.parse` on it: `jsonVal j` is a string that is
  valid JSON parsing to `j`, `nonJson s` is the plain string `s` on
  which `JSON.parse` throws.
* localStorage is modelled by `LocalStorage`, one `Option StorageVal`
  field per key the module touches.
* Dates are modelled by their millisecond timestamps (`Int`), matching
  `Date.getTime / Date.now`.
* `fetch` is modelled by a `FetchOutcome` oracle argument: either a
  network-level rejection or a `ResponseModel`.  Each gateway operation
  returns its result paired with `Option (List (String × String))`:
  `some hs` when a request with headers `hs` was issued, `none` when the
  operation returned without any network call.
* JS exceptions inside a `try` block are modelled with `Except`; the
  surrounding `catch` clause is the `.error` branch of the match.
-/

/-- JSON values, as produced by `JSON.parse`. -/
inductive Json where
  | jnull : Json
  | jbool : Bool → Json
  | jnum : Int → Json
  | jstr : String → Json
  | jarr : List Json → Json
  | jobj : List (String × Json) → Json
deriving Repr

mutual

/-- Models `JSON.stringify` (string escaping not reproduced; no claim
inspects the serialized text of a composite value). -/
def Json.stringify : Json → String
  | .jnull => "null"
  | .jbool true => "true"
  | .jbool false => "false"
  | .jnum n => toString n
  | .jstr s => "\"" ++ s ++ "\""
  | .jarr xs => "[" ++ Json.stringifyArr xs ++ "]"
  | .jobj fs => "\x7b" ++ Json.stringifyObj fs ++ "\x7d"

def Json.stringifyArr : List Json → String
  | [] => ""
  | [x] => Json.stringify x
  | x :: xs => Json.stringify x ++ "," ++ Json.stringifyArr xs

def Json.stringifyObj : List (String × Json) → String
  | [] => ""
  | [(k, v)] => "\"" ++ k ++ "\":" ++ Json.stringify v
  | (k, v) :: xs => "\"" ++ k ++ "\":" ++ Json.stringify v ++ "," ++ Json.stringifyObj xs

end

mutual

/-- Models the JS `String(·)` coercion applied to a JSON value. -/
def Json.jsToString : Json → String
  | .jnull => "null"
  | .jbool true => "true"
  | .jbool false => "false"
  | .jnum n => toString n
  | .jstr s => s
  | .jarr xs => Json.jsToStringArr xs
  | .jobj _ => "[object Object]"

def Json.jsToStringArr : List Json → String
  | [] => ""
  | [x] => Json.jsToString x
  | x :: xs => Json.jsToString x ++ "," ++ Json.jsToStringArr xs

end

/-- JS truthiness of a JSON value (`null`, `false`, `0` and `""` are
falsy; arrays and objects are always truthy). -/
def Json.isTruthy : Json → Bool
  | .jnull => false
  | .jbool b => b
  | .jnum n => if n = 0 then false else true
  | .jstr s => if s = "" then false else true
  | .jarr _ => true
  | .jobj _ => true

/-- A string stored in localStorage, tagged by its `JSON.parse` outcome:
`jsonVal j` is a valid-JSON string parsing to `j`, `nonJson s` is the
plain string `s` on which `JSON.parse` throws. -/
inductive StorageVal where
  | jsonVal : Json → StorageVal
  | nonJson : String → StorageVal
deriving Repr

/-- The raw string text of a stored value, as `localStorage.getItem`
returns it. -/
def StorageVal.asStr : StorageVal → String
  | .jsonVal j => j.stringify
  | .nonJson s => s

/-- JS truthiness of a `string | null` value (`null` and `""` falsy). -/
def truthyStr : Option String → Bool
  | none => false
  | some s => if s = "" then false else true

/-- The localStorage keys touched by `api.ts`: `healthBuddieToken` and
`healthBuddieUser` are the Session Store keys written by `login` and
removed by `logout`; `phoneNumber` and `token` are the separately-keyed
plain values read only by `getMessages`. -/
structure LocalStorage where
  healthBuddieToken : Option StorageVal
  healthBuddieUser : Option StorageVal
  phoneNumber : Option StorageVal
  token : Option StorageVal
deriving Repr

/-- The empty storage state. -/
def emptyStorage : LocalStorage := ⟨none, none, none, none⟩

/-- JS property access `v.f` on a parsed JSON value: throws (TypeError)
when `v` is `null`, yields the field (or `undefined`, i.e. `none`) on an
object, `undefined` on any other value. -/
def jsField : Json → String → Except Unit (Option Json)
  | .jnull, _ => .error ()
  | .jobj fs, k => .ok (fs.lookup k)
  | _, _ => .ok none

/-- `getToken`: `localStorage.getItem('healthBuddieToken')`. -/
def getToken (st : LocalStorage) : Option String :=
  st.healthBuddieToken.map StorageVal.asStr

/-- Body of the `try` block of `getPhoneNumber`: reads
`healthBuddieUser`, runs `JSON.parse` on it and returns
`user.phoneNumber || null`; `.error` marks the points where the JS code
throws (malformed JSON, property access on `null`). -/
def getPhoneNumberExc (st : LocalStorage) : Except Unit (Option Json) :=
  match st.healthBuddieUser with
  | none => .ok none
  | some (.nonJson _) => .error ()
  | some (.jsonVal user) =>
    match jsField user "phoneNumber" with
    | .error e => .error e
    | .ok none => .ok none
    | .ok (some v) => .ok (if v.isTruthy then some v else none)

/-- `getPhoneNumber`: the `try` body with its `catch` clause, which logs
and returns `null` on any thrown error. -/
def getPhoneNumber (st : LocalStorage) : Option Json :=
  match getPhoneNumberExc st with
  | .ok r => r
  | .error _ => none

/-- `getHeaders`: always `Content-Type`; adds `X-Phone-Number` with the
raw identity value when present, and `Authorization: Bearer <token>`
when the token is truthy. -/
def getHeaders (st : LocalStorage) : List (String × String) :=
  [("Content-Type", "application/json")]
    ++ (match getPhoneNumber st with
        | some p => [("X-Phone-Number", p.jsToString)]
        | none => [])
    ++ (match getToken st with
        | some t => if t = "" then [] else [("Authorization", "Bearer " ++ t)]
        | none => [])

/-- `isAuthenticated`: `!!getToken() && !!getPhoneNumber()`. -/
def isAuthenticated (st : LocalStorage) : Bool :=
  truthyStr (getToken st) && (getPhoneNumber st).isSome

/-- The user object `login` constructs: id derived from the current
time, `verified: true`, `createdAt` / `lastActive` the current instant
(Date values kept as their numeric timestamps). -/
def loginProfile (now : Int) (phoneNumber : String) : Json :=
  .jobj [("id", .jstr ("user-" ++ toString now)),
         ("phoneNumber", .jstr phoneNumber),
         ("createdAt", .jnum now),
         ("lastActive", .jnum now),
         ("verified", .jbool true)]

/-- The value `login` resolves with. -/
structure LoginResult where
  success : Bool
  user : Json
deriving Repr

/-- `login(phoneNumber)`: stores `JSON.stringify(user)` under
`healthBuddieUser` and the plain string `demo-token-<now>` under
`healthBuddieToken`, then returns `{ success: true, user }`. -/
def login (st : LocalStorage) (now : Int) (phoneNumber : String) :
    LocalStorage × LoginResult :=
  let user := loginProfile now phoneNumber
  ({ st with
      healthBuddieUser := some (.jsonVal user),
      healthBuddieToken := some (.nonJson ("demo-token-" ++ toString now)) },
   ⟨true, user⟩)

/-- `logout()`: removes `healthBuddieToken` and `healthBuddieUser`. -/
def logout (st : LocalStorage) : LocalStorage :=
  { st with healthBuddieToken := none, healthBuddieUser := none }

/-- Milliseconds per day, `24 * 60 * 60 * 1000`. -/
def msPerDay : Int := 24 * 60 * 60 * 1000

/-- An exercise log entry of the mock generator. -/
structure ExerciseLog where
  id : String
  date : Int
  duration : Nat
  type : String
  distance : String
deriving Repr

/-- A food log entry of the mock generator. -/
structure FoodLog where
  id : String
  date : Int
  foodItems : String
deriving Repr

/-- A message of the mock generator; `category` and `processed_data`
are absent (`none`) on the unclassified message. -/
structure MockMessage where
  id : String
  content : String
  timestamp : Int
  type : String
  channel : String
  processed : Bool
  category : Option String
  processed_data : Option Json
deriving Repr

/-- `getMockExerciseLogs`, with the wall-clock `today` (its
`getTime`) passed explicitly. -/
def getMockExerciseLogs (today : Int) : List ExerciseLog :=
  [⟨"ex1", today - 1 * msPerDay, 30, "running", "3 miles"⟩,
   ⟨"ex2", today - 2 * msPerDay, 45, "cycling", "10 miles"⟩,
   ⟨"ex3", today - 4 * msPerDay, 60, "yoga", ""⟩]

/-- `getMockFoodLogs`, with `today` passed explicitly. -/
def getMockFoodLogs (today : Int) : List FoodLog :=
  [⟨"food1", today - 1 * msPerDay, "Salad with grilled chicken"⟩,
   ⟨"food2", today - 2 * msPerDay, "Oatmeal with berries and honey"⟩,
   ⟨"food3", today - 3 * msPerDay, "Pasta with tomato sauce"⟩]

/-- `getMockMessages`, with `today` passed explicitly. -/
def getMockMessages (today : Int) : List MockMessage :=
  [⟨"msg1", "I ran for 30 minutes today", today - 1 * msPerDay, "incoming",
    "whatsapp", true, some "exercise",
    some (.jobj [("exercise",
      .jobj [("duration", .jnum 30), ("type", .jstr "running"),
             ("distance", .jstr "3 miles")])])⟩,
   ⟨"msg2", "Had a salad with grilled chicken for lunch", today - 2 * msPerDay,
    "incoming", "whatsapp", true, some "food",
    some (.jobj [("food",
      .jobj [("description", .jstr "Salad with grilled chicken")])])⟩,
   ⟨"msg3", "status", today - 3 * msPerDay, "incoming", "whatsapp", true,
    none, none⟩]

/-- Model of a `fetch` response: `jsonBody = none` means
`response.json()` throws (body not valid JSON). -/
structure ResponseModel where
  status : Nat
  textBody : String
  jsonBody : Option Json
deriving Repr

/-- `response.ok`: status in the inclusive range 200–299. -/
def ResponseModel.ok (r : ResponseModel) : Bool :=
  200 ≤ r.status && r.status ≤ 299

/-- Outcome of a `fetch` call: a network-level rejection or a
response. -/
inductive FetchOutcome where
  | netError : FetchOutcome
  | response : ResponseModel → FetchOutcome
deriving Repr

/-- The value `getHealthData` resolves with: either the remote response
body returned unmodified, or the literal fallback object
`\x7b success: true, data: \x7b exerciseLogs, foodLogs \x7d \x7d`. -/
inductive HealthResult where
  | remote : Json → HealthResult
  | fallback : Bool → List ExerciseLog → List FoodLog → HealthResult
deriving Repr

/-- The mock fallback envelope `getHealthData` builds, with the literal
`success: true` and both mock generators. -/
def mkMockEnvelope (today : Int) : HealthResult :=
  .fallback true (getMockExerciseLogs today) (getMockFoodLogs today)

/-- Whether a `getHealthData` result is an envelope carrying
`success: false`. -/
def HealthResult.isSuccessFalse : HealthResult → Bool
  | .remote (.jobj fs) =>
    match fs.lookup "success" with
    | some (.jbool false) => true
    | _ => false
  | .remote _ => false
  | .fallback s _ _ => !s

/-- `getHealthData(days)`: without an identity, immediately returns the
mock envelope (no fetch).  Otherwise fetches with `getHeaders`; a
network rejection, a non-2xx response, or a 2xx body `response.json()`
cannot parse all land in the `catch` clause, which returns the mock
envelope; a parseable 2xx body is returned unmodified. -/
def getHealthData (st : LocalStorage) (days : Nat) (today : Int)
    (net : FetchOutcome) : HealthResult × Option (List (String × String)) :=
  match getPhoneNumber st with
  | none => (mkMockEnvelope today, none)
  | some _ =>
    match net with
    | .netError => (mkMockEnvelope today, some (getHeaders st))
    | .response r =>
      if r.ok then
        match r.jsonBody with
        | some j => (.remote j, some (getHeaders st))
        | none => (mkMockEnvelope today, some (getHeaders st))
      else
        (mkMockEnvelope today, some (getHeaders st))

/-- The `ApiResponse` envelope of `getMessages`. -/
structure ApiResponse where
  success : Bool
  data : Option Json
  error : Option Json
deriving Repr

/-- The value the outer `catch` clause of `getMessages` returns. -/
def getMessagesCatch : ApiResponse :=
  ⟨false, none, some (.jstr "Failed to get messages")⟩

/-- `getMessages()`: reads the plain `phoneNumber` key; when it is
falsy, returns the `No phone number found` error without fetching.
Otherwise fetches with manually built headers (`Content-Type` plus a
conditional bearer token from the plain `token` key); on a 2xx response
returns `data.messages` as `data`; on a non-2xx response returns
`errorData.error || 'Failed to get messages'`; every thrown error is
caught and becomes `getMessagesCatch`. -/
def getMessages (st : LocalStorage) (net : FetchOutcome) :
    ApiResponse × Option (List (String × String)) :=
  let phoneNumber := st.phoneNumber.map StorageVal.asStr
  if !truthyStr phoneNumber then
    (⟨false, none, some (.jstr "No phone number found")⟩, none)
  else
    let tok := st.token.map StorageVal.asStr
    let headers := [("Content-Type", "application/json")]
      ++ (if truthyStr tok then
            [("Authorization", "Bearer " ++ tok.getD "")] else [])
    match net with
    | .netError => (getMessagesCatch, some headers)
    | .response r =>
      if r.ok then
        match r.jsonBody with
        | none => (getMessagesCatch, some headers)
        | some d =>
          match jsField d "messages" with
          | .error _ => (getMessagesCatch, some headers)
          | .ok m => (⟨true, m, none⟩, some headers)
      else
        match r.jsonBody with
        | none => (getMessagesCatch, some headers)
        | some ed =>
          match jsField ed "error" with
          | .error _ => (getMessagesCatch, some headers)
          | .ok none =>
            (⟨false, none, some (.jstr "Failed to get messages")⟩, some headers)
          | .ok (some v) =>
            (⟨false, none,
              some (if v.isTruthy then v else .jstr "Failed to get messages")⟩,
             some headers)

/-- A JS error value caught by `testApiConnection`: an `Error` object
with a message, a TypeError from property access on `null`, or the
rejection value of a failed `fetch`. -/
inductive CaughtError where
  | errObj : String → CaughtError
  | tyErr : CaughtError
  | netErr : CaughtError
deriving Repr

/-- The value `testApiConnection` resolves with. -/
structure TestResult where
  success : Bool
  message : Option String
  error : Option CaughtError
deriving Repr

/-- `testApiConnection()`: without an identity, returns a
`success: false` envelope carrying a constructed `Error` (no fetch).
Otherwise fetches with `getHeaders`; on a 2xx response returns
`\x7b success: true, message: 'API is reachable' \x7d`; on a non-2xx
response throws `Error(errorData.error || 'API is not reachable')`
(where `errorData` falls back to an object carrying the HTTP status if
the body is not JSON), and the `catch` clause converts every thrown
value into `\x7b success: false, error \x7d`. -/
def testApiConnection (st : LocalStorage) (net : FetchOutcome) :
    TestResult × Option (List (String × String)) :=
  match getPhoneNumber st with
  | none =>
    (⟨false, none,
      some (.errObj "No phone number available. Please log in again.")⟩, none)
  | some _ =>
    match net with
    | .netError => (⟨false, none, some .netErr⟩, some (getHeaders st))
    | .response r =>
      if r.ok then
        (⟨true, some "API is reachable", none⟩, some (getHeaders st))
      else
        let errorData : Json :=
          match r.jsonBody with
          | some j => j
          | none => .jobj [("error",
              .jstr ("HTTP error! status: " ++ toString r.status))]
        match jsField errorData "error" with
        | .error _ => (⟨false, none, some .tyErr⟩, some (getHeaders st))
        | .ok none =>
          (⟨false, none, some (.errObj "API is not reachable")⟩,
           some (getHeaders st))
        | .ok (some v) =>
          (⟨false, none,
            some (.errObj (if v.isTruthy then v.jsToString
                           else "API is not reachable"))⟩,
           some (getHeaders st))

/-! ## Helper lemmas -/

theorem demoToken_ne_empty (s : String) : ("demo-token-" ++ s) ≠ "" := by
  intro h
  have h2 := congrArg String.length h
  simp [String.length_append] at h2
  exact absurd h2.1 (by decide)

theorem getPhoneNumber_login (st : LocalStorage) (now : Int) (P : String)
    (hP : P ≠ "") :
    getPhoneNumber (login st now P).1 = some (.jstr P) := by
  simp [getPhoneNumber, getPhoneNumberExc, login, loginProfile, jsField,
    List.lookup, Json.isTruthy, hP]

theorem isAuthenticated_login (st : LocalStorage) (now : Int) (P : String)
    (hP : P ≠ "") :
    isAuthenticated (login st now P).1 = true := by
  unfold isAuthenticated
  rw [getPhoneNumber_login st now P hP]
  simp [getToken, login, StorageVal.asStr, truthyStr,
    demoToken_ne_empty (toString now)]

/-! ## Claim theorems -/

/-- Claim C2: for every non-empty phone-number string `P`, after
`login(P)` the caller is authenticated, the stored profile (under
`healthBuddieUser`) has `phoneNumber = P`, `verified = true` and an id
derived from the current time, and `login` returns
`\x7b success: true, user: profile \x7d`. -/
theorem login_spec (st : LocalStorage) (now : Int) (P : String) (hP : P ≠ "") :
    isAuthenticated (login st now P).1 = true ∧
    getPhoneNumber (login st now P).1 = some (.jstr P) ∧
    (login st now P).1.healthBuddieUser = some (.jsonVal (loginProfile now P)) ∧
    jsField (loginProfile now P) "phoneNumber" = .ok (some (.jstr P)) ∧
    jsField (loginProfile now P) "verified" = .ok (some (.jbool true)) ∧
    jsField (loginProfile now P) "id" =
      .ok (some (.jstr ("user-" ++ toString now))) ∧
    (login st now P).2 = ⟨true, loginProfile now P⟩ := by
  refine ⟨isAuthenticated_login st now P hP, getPhoneNumber_login st now P hP,
    rfl, ?_, ?_, ?_, rfl⟩ <;> simp [jsField, loginProfile, List.lookup]

/-- Witness for C2 at a concrete phone number and instant. -/
theorem login_spec_witness :
    isAuthenticated (login emptyStorage 1700000000000 "15551234567").1 = true ∧
    getPhoneNumber (login emptyStorage 1700000000000 "15551234567").1 =
      some (.jstr "15551234567") ∧
    (login emptyStorage 1700000000000 "15551234567").1.healthBuddieUser =
      some (.jsonVal (loginProfile 1700000000000 "15551234567")) ∧
    jsField (loginProfile 1700000000000 "15551234567") "phoneNumber" =
      .ok (some (.jstr "15551234567")) ∧
    jsField (loginProfile 1700000000000 "15551234567") "verified" =
      .ok (some (.jbool true)) ∧
    jsField (loginProfile 1700000000000 "15551234567") "id" =
      .ok (some (.jstr ("user-" ++ toString (1700000000000 : Int)))) ∧
    (login emptyStorage 1700000000000 "15551234567").2 =
      ⟨true, loginProfile 1700000000000 "15551234567"⟩ :=
  login_spec emptyStorage 1700000000000 "15551234567" (by decide)

/-- Claim C3: `getMessages` reads the plain `phoneNumber` key, which is
distinct from the `healthBuddieUser` key `login` writes; hence on any
storage state produced by `login(P)` alone (plain key absent),
`getMessages` fails with `No phone number found` and issues no request,
even though `isAuthenticated()` is true. -/
theorem getMessages_after_login_spec (st : LocalStorage) (now : Int)
    (P : String) (net : FetchOutcome)
    (hplain : st.phoneNumber = none) (hP : P ≠ "") :
    getMessages (login st now P).1 net =
      (⟨false, none, some (.jstr "No phone number found")⟩, none) ∧
    isAuthenticated (login st now P).1 = true := by
  constructor
  · simp [getMessages, login, hplain, truthyStr]
  · exact isAuthenticated_login st now P hP

/-- Witness for C3: login into empty storage, then getMessages fails
while isAuthenticated holds. -/
theorem getMessages_after_login_witness :
    getMessages (login emptyStorage 0 "15551234567").1 FetchOutcome.netError =
      (⟨false, none, some (.jstr "No phone number found")⟩, none) ∧
    isAuthenticated (login emptyStorage 0 "15551234567").1 = true :=
  getMessages_after_login_spec emptyStorage 0 "15551234567"
    FetchOutcome.netError rfl (by decide)

/-- Claim C8: after `logout()` the caller is not authenticated; logout
is idempotent (running it twice equals running it once), and on a state
with no session it is a no-op. -/
theorem logout_spec (st : LocalStorage) :
    isAuthenticated (logout st) = false ∧
    logout (logout st) = logout st ∧
    (st.healthBuddieToken = none → st.healthBuddieUser = none →
      logout st = st) := by
  refine ⟨rfl, rfl, fun h1 h2 => ?_⟩
  cases st
  simp_all [logout]

/-- Witness for C8: logout on the empty storage state is a no-op. -/
theorem logout_spec_witness : logout emptyStorage = emptyStorage :=
  (logout_spec emptyStorage).2.2 rfl rfl

/-- Claim C9: when the stored profile string is not valid JSON, the
`try` body of `getPhoneNumber` throws, but `getPhoneNumber` catches it
and returns `null`; in particular `isAuthenticated` evaluates (to
`false`) rather than propagating the exception. -/
theorem getPhoneNumber_malformed_spec (st : LocalStorage) :
    (getPhoneNumberExc st = .error () → getPhoneNumber st = none) ∧
    (∀ s, st.healthBuddieUser = some (.nonJson s) →
      getPhoneNumberExc st = .error () ∧ getPhoneNumber st = none ∧
      isAuthenticated st = false) := by
  constructor
  · intro h
    simp [getPhoneNumber, h]
  · intro s hs
    have hexc : getPhoneNumberExc st = .error () := by
      simp [getPhoneNumberExc, hs]
    have hnone : getPhoneNumber st = none := by
      simp [getPhoneNumber, hexc]
    exact ⟨hexc, hnone, by simp [isAuthenticated, hnone]⟩

/-- Witness for C9 at a storage state holding a malformed profile. -/
theorem getPhoneNumber_malformed_witness :
    getPhoneNumberExc ⟨some (.nonJson "tok"), some (.nonJson "not json"),
      none, none⟩ = .error () ∧
    getPhoneNumber ⟨some (.nonJson "tok"), some (.nonJson "not json"),
      none, none⟩ = none ∧
    isAuthenticated ⟨some (.nonJson "tok"), some (.nonJson "not json"),
      none, none⟩ = false :=
  (getPhoneNumber_malformed_spec _).2 "not json" rfl

/-- Claim C4: relative to a fixed reference instant `today`, the mock
exercise generator yields exactly the 3 fixed entries at 1, 2 and 4
days before today, the food generator the 3 fixed entries at 1, 2 and 3
days before, the message generator 3 incoming messages at 1, 2 and 3
days before with categories exercise, food and unclassified, and each
sequence's date/timestamp column is monotonically nonincreasing. -/
theorem mockGenerators_spec (today : Int) :
    getMockExerciseLogs today =
      [⟨"ex1", today - 1 * msPerDay, 30, "running", "3 miles"⟩,
       ⟨"ex2", today - 2 * msPerDay, 45, "cycling", "10 miles"⟩,
       ⟨"ex3", today - 4 * msPerDay, 60, "yoga", ""⟩] ∧
    getMockFoodLogs today =
      [⟨"food1", today - 1 * msPerDay, "Salad with grilled chicken"⟩,
       ⟨"food2", today - 2 * msPerDay, "Oatmeal with berries and honey"⟩,
       ⟨"food3", today - 3 * msPerDay, "Pasta with tomato sauce"⟩] ∧
    (getMockMessages today).length = 3 ∧
    (getMockMessages today).map MockMessage.timestamp =
      [today - 1 * msPerDay, today - 2 * msPerDay, today - 3 * msPerDay] ∧
    (getMockMessages today).map MockMessage.type =
      ["incoming", "incoming", "incoming"] ∧
    (getMockMessages today).map MockMessage.category =
      [some "exercise", some "food", none] ∧
    List.Chain' (fun a b => b ≤ a)
      ((getMockExerciseLogs today).map ExerciseLog.date) ∧
    List.Chain' (fun a b => b ≤ a)
      ((getMockFoodLogs today).map FoodLog.date) ∧
    List.Chain' (fun a b => b ≤ a)
      ((getMockMessages today).map MockMessage.timestamp) := by
  refine ⟨rfl, rfl, rfl, rfl, rfl, rfl, ?_, ?_, ?_⟩ <;>
    simp [getMockExerciseLogs, getMockFoodLogs, getMockMessages,
      List.chain'_cons, msPerDay] <;> omega

/-- Claim C1 counterexample: with an identity present and a 2xx
response whose JSON body is the object with `success: false`,
`getHealthData` returns that body unmodified — a `success: false`
envelope — so the claim's unconditional clause fails on the code. -/
theorem getHealthData_success_false_cex :
    (getHealthData
        ⟨none, some (.jsonVal (.jobj [("phoneNumber", .jstr "15551234567")])),
          none, none⟩
        7 0 (.response ⟨200, "", some (.jobj [("success", .jbool false)])⟩)).1 =
      .remote (.jobj [("success", .jbool false)]) ∧
    HealthResult.isSuccessFalse
      ((getHealthData
          ⟨none, some (.jsonVal (.jobj [("phoneNumber", .jstr "15551234567")])),
            none, none⟩
          7 0 (.response
            ⟨200, "", some (.jobj [("success", .jbool false)])⟩)).1) =
      true :=
  ⟨rfl, rfl⟩

/-- Claim C1 (amended): whenever no identity is present, the fetch
rejects, or the response is non-2xx, `getHealthData` returns the
`success: true` mock envelope built from the two generators — never a
`success: false` envelope in these failure modes — and when no identity
is present it issues no request. (A parseable 2xx body is returned
unmodified, so it may itself carry `success: false`; every throw inside
the operation is caught, so it never throws to its caller.) -/
theorem getHealthData_fallback_spec (st : LocalStorage) (days : Nat)
    (today : Int) (net : FetchOutcome)
    (h : getPhoneNumber st = none ∨ net = .netError ∨
         ∃ r, net = .response r ∧ r.ok = false) :
    (getHealthData st days today net).1 = mkMockEnvelope today ∧
    ((getHealthData st days today net).1).isSuccessFalse = false ∧
    (getPhoneNumber st = none → (getHealthData st days today net).2 = none) := by
  have hmock : (mkMockEnvelope today).isSuccessFalse = false := rfl
  rcases h with h | h | ⟨r, hr, hok⟩
  · simp [getHealthData, h, hmock]
  · subst h
    cases hp : getPhoneNumber st with
    | none => simp [getHealthData, hp, hmock]
    | some p => simp [getHealthData, hp, hmock]
  · subst hr
    cases hp : getPhoneNumber st with
    | none => simp [getHealthData, hp, hmock]
    | some p => simp [getHealthData, hp, hok, hmock]

/-- Witness for the amended C1: no identity in storage, so the mock
envelope comes back and no request is issued. -/
theorem getHealthData_fallback_witness :
    (getHealthData emptyStorage 7 0 FetchOutcome.netError).1 =
      mkMockEnvelope 0 ∧
    ((getHealthData emptyStorage 7 0 FetchOutcome.netError).1).isSuccessFalse =
      false ∧
    (getPhoneNumber emptyStorage = none →
      (getHealthData emptyStorage 7 0 FetchOutcome.netError).2 = none) :=
  getHealthData_fallback_spec emptyStorage 7 0 FetchOutcome.netError
    (Or.inl rfl)

/-- Claim C5: with no identity for the respective operation,
`getMessages` returns exactly the `No phone number found` failure
envelope and `testApiConnection` returns a failure envelope carrying an
`Error` whose message mentions logging in again; neither issues a
network request (second component `none`), and in the model both are
total, i.e. every failure mode is caught. -/
theorem noIdentity_errors_spec (st st2 : LocalStorage)
    (net net2 : FetchOutcome) :
    (truthyStr (st.phoneNumber.map StorageVal.asStr) = false →
      getMessages st net =
        (⟨false, none, some (.jstr "No phone number found")⟩, none)) ∧
    (getPhoneNumber st2 = none →
      testApiConnection st2 net2 =
        (⟨false, none,
          some (.errObj "No phone number available. Please log in again.")⟩,
         none) ∧
      ∃ a b, "No phone number available. Please log in again." =
        a ++ "log in again" ++ b) := by
  constructor
  · intro h
    simp [getMessages, h]
  · intro h
    refine ⟨by simp [testApiConnection, h],
      "No phone number available. Please ", ".", rfl⟩

/-- Witness for C5 on the empty storage state. -/
theorem noIdentity_errors_witness :
    getMessages emptyStorage FetchOutcome.netError =
      (⟨false, none, some (.jstr "No phone number found")⟩, none) ∧
    testApiConnection emptyStorage FetchOutcome.netError =
      (⟨false, none,
        some (.errObj "No phone number available. Please log in again.")⟩,
       none) ∧
    (∃ a b, "No phone number available. Please log in again." =
      a ++ "log in again" ++ b) :=
  ⟨(noIdentity_errors_spec emptyStorage emptyStorage FetchOutcome.netError
      FetchOutcome.netError).1 rfl,
   ((noIdentity_errors_spec emptyStorage emptyStorage FetchOutcome.netError
      FetchOutcome.netError).2 rfl).1,
   ((noIdentity_errors_spec emptyStorage emptyStorage FetchOutcome.netError
      FetchOutcome.netError).2 rfl).2⟩

/-- Claim C6: with a truthy identity under the plain `phoneNumber` key
and a 2xx response whose JSON body has a `messages` field `M`,
`getMessages` returns `\x7b success: true, data: M \x7d` with the
field passed through unmodified, and a request was issued. -/
theorem getMessages_success_spec (st : LocalStorage) (v : StorageVal)
    (r : ResponseModel) (fs : List (String × Json)) (M : Json)
    (hv : st.phoneNumber = some v) (hne : v.asStr ≠ "")
    (hok : r.ok = true) (hbody : r.jsonBody = some (.jobj fs))
    (hmsg : fs.lookup "messages" = some M) :
    (getMessages st (.response r)).1 = ⟨true, some M, none⟩ ∧
    ((getMessages st (.response r)).2).isSome = true := by
  constructor <;>
    simp [getMessages, hv, truthyStr, hne, hok, hbody, jsField, hmsg]

/-- Witness for C6: a concrete store and 200 response carrying a
one-element messages array. -/
theorem getMessages_success_witness :
    (getMessages ⟨none, none, some (.nonJson "15551234567"), none⟩
        (.response ⟨200, "",
          some (.jobj [("messages", .jarr [.jstr "hi"])])⟩)).1 =
      ⟨true, some (.jarr [.jstr "hi"]), none⟩ ∧
    ((getMessages ⟨none, none, some (.nonJson "15551234567"), none⟩
        (.response ⟨200, "",
          some (.jobj [("messages", .jarr [.jstr "hi"])])⟩)).2).isSome =
      true :=
  getMessages_success_spec _ _ _ _ _ rfl (by decide) rfl rfl rfl

theorem getMessages_fetches (st : LocalStorage) (net : FetchOutcome)
    (h : truthyStr (st.phoneNumber.map StorageVal.asStr) = true) :
    ((getMessages st net).2).isSome = true := by
  unfold getMessages
  simp only [h, Bool.not_true, Bool.false_eq_true, if_false]
  cases net with
  | netError => simp
  | response r =>
    by_cases hok : r.ok = true <;>
      simp only [hok, if_true, Bool.false_eq_true, if_false] <;>
      cases r.jsonBody with
      | none => simp
      | some d =>
        simp only
        split <;> simp

/-- Claim C7: the header builder produces, when an identity `I` and a
token `T` are both present, exactly the content-type header, the
`X-Phone-Number` header carrying the raw identity `I`, and an
`Authorization` bearer entry containing `T`; with neither identity nor
token present it produces the content-type header alone. -/
theorem getHeaders_spec (st : LocalStorage) :
    (∀ fs I tv T, st.healthBuddieUser = some (.jsonVal (.jobj fs)) →
      fs.lookup "phoneNumber" = some (.jstr I) → I ≠ "" →
      st.healthBuddieToken = some tv → tv.asStr = T → T ≠ "" →
      getHeaders st = [("Content-Type", "application/json"),
                       ("X-Phone-Number", I),
                       ("Authorization", "Bearer " ++ T)]) ∧
    (getPhoneNumber st = none → truthyStr (getToken st) = false →
      getHeaders st = [("Content-Type", "application/json")]) := by
  constructor
  · intro fs I tv T hu hlk hI ht hT hTne
    simp [getHeaders, getPhoneNumber, getPhoneNumberExc, hu, jsField, hlk,
      Json.isTruthy, hI, getToken, ht, hT, hTne, Json.jsToString]
  · intro h1 h2
    cases htk : getToken st with
    | none => simp [getHeaders, h1, htk]
    | some t =>
      by_cases ht0 : t = ""
      · simp [getHeaders, h1, htk, ht0]
      · rw [htk] at h2
        simp [truthyStr, ht0] at h2

/-- Witness for C7: a concrete session (identity and token present)
produces the three headers; the empty store produces only the
content-type header. -/
theorem getHeaders_witness :
    getHeaders ⟨some (.nonJson "tok123"),
        some (.jsonVal (.jobj [("phoneNumber", .jstr "15551234567")])),
        none, none⟩ =
      [("Content-Type", "application/json"),
       ("X-Phone-Number", "15551234567"),
       ("Authorization", "Bearer " ++ "tok123")] ∧
    getHeaders emptyStorage = [("Content-Type", "application/json")] :=
  ⟨(getHeaders_spec _).1 [("phoneNumber", .jstr "15551234567")]
      "15551234567" (.nonJson "tok123") "tok123" rfl rfl (by decide) rfl rfl
      (by decide),
   (getHeaders_spec emptyStorage).2 rfl rfl⟩

/-- Claim C10: `logout` removes only the Session Store keys and leaves
the plain `phoneNumber` and `token` keys untouched, so when the plain
phone-number key holds a truthy value, `getMessages` after `logout`
behaves exactly as before it and still issues a network request. -/
theorem logout_frame_spec (st : LocalStorage) (net : FetchOutcome)
    (v : StorageVal) :
    (logout st).phoneNumber = st.phoneNumber ∧
    (logout st).token = st.token ∧
    getMessages (logout st) net = getMessages st net ∧
    (st.phoneNumber = some v → v.asStr ≠ "" →
      ((getMessages (logout st) net).2).isSome = true) := by
  refine ⟨rfl, rfl, rfl, fun hv hne => ?_⟩
  apply getMessages_fetches
  simp [logout, hv, truthyStr, hne]

/-- Witness for C10: a store holding only the plain phone-number key;
after logout, getMessages still issues a request. -/
theorem logout_frame_witness :
    (logout ⟨none, none, some (.nonJson "15551234567"), none⟩).phoneNumber =
      (⟨none, none, some (.nonJson "15551234567"), none⟩ :
        LocalStorage).phoneNumber ∧
    (logout ⟨none, none, some (.nonJson "15551234567"), none⟩).token =
      (⟨none, none, some (.nonJson "15551234567"), none⟩ :
        LocalStorage).token ∧
    getMessages (logout ⟨none, none, some (.nonJson "15551234567"), none⟩)
        FetchOutcome.netError =
      getMessages ⟨none, none, some (.nonJson "15551234567"), none⟩
        FetchOutcome.netError ∧
    ((getMessages (logout ⟨none, none, some (.nonJson "15551234567"), none⟩)
        FetchOutcome.netError).2).isSome = true :=
  ⟨(logout_frame_spec _ FetchOutcome.netError (.nonJson "15551234567")).1,
   (logout_frame_spec _ FetchOutcome.netError (.nonJson "15551234567")).2.1,
   (logout_frame_spec _ FetchOutcome.netError (.nonJson "15551234567")).2.2.1,
   (logout_frame_spec _ FetchOutcome.netError
      (.nonJson "15551234567")).2.2.2 rfl (by decide)⟩
